import Mathlib

/-!
Shallow embedding of the `emtick` tick/time library (files `src/conv.rs`,
`src/duration.rs`, `src/instant.rs`, `src/lib.rs`).

Machine integers are modelled as `Nat`:
* a `u64` value is a `Nat` below `2^64`; the Rust cast `as u64` of a `u128`
  value is `% 2^64`;
* the `u128` intermediates in `conv.rs` are exact, because a product of two
  `u64` values is below `2^128`, so no `% 2^128` is needed;
* Rust division panics on a zero divisor; in this development every divisor
  is either a nonzero literal or the clock's tick rate, which the library's
  contract requires to be positive, and every theorem that divides by the
  rate assumes `0 < r`;
* a Rust `panic!` / `expect` / `unwrap` outcome is modelled as `none` of an
  `Option` result; functions that cannot panic stay total.
-/

namespace Emtick

/-- `u64::MAX`. -/
def u64Max : Nat := 18446744073709551615

/-- The `(nom, denom)` table of `micros_to_ticks` (src/conv.rs lines 5-16). -/
def micros_nom_denom (r : Nat) : Nat × Nat :=
  if r = 1 then (1, 1000000)
  else if r = 10 then (1, 100000)
  else if r = 100 then (1, 10000)
  else if r = 1000 then (1, 1000)
  else if r = 10000 then (1, 100)
  else if r = 100000 then (1, 10)
  else if r = 1000000 then (1, 1)
  else if r = 10000000 then (10, 1)
  else if r = 100000000 then (100, 1)
  else (r, 1000000)

/-- `conv::micros_to_ticks` (src/conv.rs lines 4-19): u128 multiply, divide,
truncating cast back to u64. -/
def micros_to_ticks (micros r : Nat) : Nat :=
  (micros * (micros_nom_denom r).1 / (micros_nom_denom r).2) % 2^64

/-- The `(nom, denom)` table of `millis_to_ticks` (src/conv.rs lines 23-34). -/
def millis_nom_denom (r : Nat) : Nat × Nat :=
  if r = 1 then (1, 1000)
  else if r = 10 then (1, 100)
  else if r = 100 then (1, 10)
  else if r = 1000 then (1, 1)
  else if r = 10000 then (10, 1)
  else if r = 100000 then (100, 1)
  else if r = 1000000 then (1000, 1)
  else if r = 10000000 then (10000, 1)
  else if r = 100000000 then (100000, 1)
  else (r, 1000)

/-- `conv::millis_to_ticks` (src/conv.rs lines 22-37). -/
def millis_to_ticks (millis r : Nat) : Nat :=
  (millis * (millis_nom_denom r).1 / (millis_nom_denom r).2) % 2^64

/-- `conv::secs_to_ticks` (src/conv.rs lines 40-42): a plain u64 multiply;
release-mode Rust wraps on overflow, modelled as `% 2^64`. -/
def secs_to_ticks (secs r : Nat) : Nat :=
  (secs * r) % 2^64

/-- The `(nom, denom)` table of `ticks_to_micros` (src/conv.rs lines 46-57). -/
def ticks_to_micros_nom_denom (r : Nat) : Nat × Nat :=
  if r = 1 then (1000000, 1)
  else if r = 10 then (100000, 1)
  else if r = 100 then (10000, 1)
  else if r = 1000 then (1000, 1)
  else if r = 10000 then (100, 1)
  else if r = 100000 then (10, 1)
  else if r = 1000000 then (1, 1)
  else if r = 10000000 then (1, 10)
  else if r = 100000000 then (1, 100)
  else (1000000, r)

/-- `conv::ticks_to_micros` (src/conv.rs lines 45-60). -/
def ticks_to_micros (ticks r : Nat) : Nat :=
  (ticks * (ticks_to_micros_nom_denom r).1 / (ticks_to_micros_nom_denom r).2) % 2^64

/-- The `(nom, denom)` table of `ticks_to_millis` (src/conv.rs lines 64-75). -/
def ticks_to_millis_nom_denom (r : Nat) : Nat × Nat :=
  if r = 1 then (1000, 1)
  else if r = 10 then (100, 1)
  else if r = 100 then (10, 1)
  else if r = 1000 then (1, 1)
  else if r = 10000 then (1, 10)
  else if r = 100000 then (1, 100)
  else if r = 1000000 then (1, 1000)
  else if r = 10000000 then (1, 10000)
  else if r = 100000000 then (1, 100000)
  else (1000, r)

/-- `conv::ticks_to_millis` (src/conv.rs lines 63-78). -/
def ticks_to_millis (ticks r : Nat) : Nat :=
  (ticks * (ticks_to_millis_nom_denom r).1 / (ticks_to_millis_nom_denom r).2) % 2^64

/-- `conv::ticks_to_secs` (src/conv.rs lines 81-83): a single u64 division. -/
def ticks_to_secs (ticks r : Nat) : Nat :=
  ticks / r

/-- The default (non-tabled) arm of `micros_to_ticks`
(`_ => (ticks_per_second, 1000000)`, src/conv.rs line 15). -/
def micros_to_ticks_default (micros r : Nat) : Nat :=
  (micros * r / 1000000) % 2^64

/-- The default arm of `millis_to_ticks` (src/conv.rs line 33). -/
def millis_to_ticks_default (millis r : Nat) : Nat :=
  (millis * r / 1000) % 2^64

/-- The default arm of `ticks_to_micros` (src/conv.rs line 56). -/
def ticks_to_micros_default (ticks r : Nat) : Nat :=
  (ticks * 1000000 / r) % 2^64

/-- The default arm of `ticks_to_millis` (src/conv.rs line 74). -/
def ticks_to_millis_default (ticks r : Nat) : Nat :=
  (ticks * 1000 / r) % 2^64

/-- Cancel a common factor of the scaling fraction under floor division. -/
lemma mul_div_scale (m a b c : Nat) (hc : 0 < c) :
    m * (a * c) / (b * c) = m * a / b := by
  rw [← Nat.mul_assoc]
  exact Nat.mul_div_mul_right (m * a) b hc

/-- A tabled `(a, b)` scaling arm agrees with the default `(r, u)` arm when
the table entry is the reduction of `r / u` by the common factor `c`. -/
lemma arm_eq_default (m a b r u c : Nat) (hc : 0 < c) (ha : a * c = r)
    (hb : b * c = u) : (m * a / b) % 2^64 = (m * r / u) % 2^64 := by
  rw [← ha, ← hb, mul_div_scale m a b c hc]

/-- Each tabled arm of `micros_to_ticks` is the reduced fraction of the
default arm, so the whole function agrees with the default arm everywhere. -/
lemma micros_to_ticks_eq_default (m r : Nat) :
    micros_to_ticks m r = micros_to_ticks_default m r := by
  unfold micros_to_ticks micros_to_ticks_default micros_nom_denom
  split_ifs with h1 h2 h3 h4 h5 h6 h7 h8 h9 <;> subst_vars
  · exact arm_eq_default m 1 1000000 1 1000000 1 (by norm_num) (by norm_num) (by norm_num)
  · exact arm_eq_default m 1 100000 10 1000000 10 (by norm_num) (by norm_num) (by norm_num)
  · exact arm_eq_default m 1 10000 100 1000000 100 (by norm_num) (by norm_num) (by norm_num)
  · exact arm_eq_default m 1 1000 1000 1000000 1000 (by norm_num) (by norm_num) (by norm_num)
  · exact arm_eq_default m 1 100 10000 1000000 10000 (by norm_num) (by norm_num) (by norm_num)
  · exact arm_eq_default m 1 10 100000 1000000 100000 (by norm_num) (by norm_num) (by norm_num)
  · exact arm_eq_default m 1 1 1000000 1000000 1000000 (by norm_num) (by norm_num) (by norm_num)
  · exact arm_eq_default m 10 1 10000000 1000000 1000000 (by norm_num) (by norm_num) (by norm_num)
  · exact arm_eq_default m 100 1 100000000 1000000 1000000 (by norm_num) (by norm_num) (by norm_num)
  · rfl

/-- `millis_to_ticks` agrees with its default arm at every rate. -/
lemma millis_to_ticks_eq_default (m r : Nat) :
    millis_to_ticks m r = millis_to_ticks_default m r := by
  unfold millis_to_ticks millis_to_ticks_default millis_nom_denom
  split_ifs with h1 h2 h3 h4 h5 h6 h7 h8 h9 <;> subst_vars
  · exact arm_eq_default m 1 1000 1 1000 1 (by norm_num) (by norm_num) (by norm_num)
  · exact arm_eq_default m 1 100 10 1000 10 (by norm_num) (by norm_num) (by norm_num)
  · exact arm_eq_default m 1 10 100 1000 100 (by norm_num) (by norm_num) (by norm_num)
  · exact arm_eq_default m 1 1 1000 1000 1000 (by norm_num) (by norm_num) (by norm_num)
  · exact arm_eq_default m 10 1 10000 1000 1000 (by norm_num) (by norm_num) (by norm_num)
  · exact arm_eq_default m 100 1 100000 1000 1000 (by norm_num) (by norm_num) (by norm_num)
  · exact arm_eq_default m 1000 1 1000000 1000 1000 (by norm_num) (by norm_num) (by norm_num)
  · exact arm_eq_default m 10000 1 10000000 1000 1000 (by norm_num) (by norm_num) (by norm_num)
  · exact arm_eq_default m 100000 1 100000000 1000 1000 (by norm_num) (by norm_num) (by norm_num)
  · rfl

/-- `ticks_to_micros` agrees with its default arm at every rate. -/
lemma ticks_to_micros_eq_default (t r : Nat) :
    ticks_to_micros t r = ticks_to_micros_default t r := by
  unfold ticks_to_micros ticks_to_micros_default ticks_to_micros_nom_denom
  split_ifs with h1 h2 h3 h4 h5 h6 h7 h8 h9 <;> subst_vars
  · exact arm_eq_default t 1000000 1 1000000 1 1 (by norm_num) (by norm_num) (by norm_num)
  · exact arm_eq_default t 100000 1 1000000 10 10 (by norm_num) (by norm_num) (by norm_num)
  · exact arm_eq_default t 10000 1 1000000 100 100 (by norm_num) (by norm_num) (by norm_num)
  · exact arm_eq_default t 1000 1 1000000 1000 1000 (by norm_num) (by norm_num) (by norm_num)
  · exact arm_eq_default t 100 1 1000000 10000 10000 (by norm_num) (by norm_num) (by norm_num)
  · exact arm_eq_default t 10 1 1000000 100000 100000 (by norm_num) (by norm_num) (by norm_num)
  · exact arm_eq_default t 1 1 1000000 1000000 1000000 (by norm_num) (by norm_num) (by norm_num)
  · exact arm_eq_default t 1 10 1000000 10000000 1000000 (by norm_num) (by norm_num) (by norm_num)
  · exact arm_eq_default t 1 100 1000000 100000000 1000000 (by norm_num) (by norm_num) (by norm_num)
  · rfl

/-- `ticks_to_millis` agrees with its default arm at every rate. -/
lemma ticks_to_millis_eq_default (t r : Nat) :
    ticks_to_millis t r = ticks_to_millis_default t r := by
  unfold ticks_to_millis ticks_to_millis_default ticks_to_millis_nom_denom
  split_ifs with h1 h2 h3 h4 h5 h6 h7 h8 h9 <;> subst_vars
  · exact arm_eq_default t 1000 1 1000 1 1 (by norm_num) (by norm_num) (by norm_num)
  · exact arm_eq_default t 100 1 1000 10 10 (by norm_num) (by norm_num) (by norm_num)
  · exact arm_eq_default t 10 1 1000 100 100 (by norm_num) (by norm_num) (by norm_num)
  · exact arm_eq_default t 1 1 1000 1000 1000 (by norm_num) (by norm_num) (by norm_num)
  · exact arm_eq_default t 1 10 1000 10000 1000 (by norm_num) (by norm_num) (by norm_num)
  · exact arm_eq_default t 1 100 1000 100000 1000 (by norm_num) (by norm_num) (by norm_num)
  · exact arm_eq_default t 1 1000 1000 1000000 1000 (by norm_num) (by norm_num) (by norm_num)
  · exact arm_eq_default t 1 10000 1000 10000000 1000 (by norm_num) (by norm_num) (by norm_num)
  · exact arm_eq_default t 1 100000 1000 100000000 1000 (by norm_num) (by norm_num) (by norm_num)
  · rfl

/-- `Duration<C>` (src/duration.rs): a span of time as a u64 tick count.
The phantom clock tag carries no data; the clock's `ticks_per_second` is
passed explicitly to the unit conversions below. -/
structure Duration where
  ticks : Nat
deriving DecidableEq

/-- `Instant<C>` (src/instant.rs): a point in time as a u64 tick count. -/
structure Instant where
  ticks : Nat
deriving DecidableEq

/-- `Duration::from_ticks` (src/duration.rs lines 65-70). -/
def Duration.from_ticks (ticks : Nat) : Duration := ⟨ticks⟩

/-- `Duration::from_micros` (src/duration.rs lines 73-78): delegates to
`conv::micros_to_ticks`, which never panics, so the function is total. -/
def Duration.from_micros (micros tps : Nat) : Duration :=
  ⟨micros_to_ticks micros tps⟩

/-- `Duration::from_millis` (src/duration.rs lines 81-86). -/
def Duration.from_millis (millis tps : Nat) : Duration :=
  ⟨millis_to_ticks millis tps⟩

/-- `Duration::from_secs` (src/duration.rs lines 89-94). -/
def Duration.from_secs (secs tps : Nat) : Duration :=
  ⟨secs_to_ticks secs tps⟩

/-- `Duration::to_micros` (src/duration.rs lines 102-104). -/
def Duration.to_micros (d : Duration) (tps : Nat) : Nat :=
  ticks_to_micros d.ticks tps

/-- `Duration::to_millis` (src/duration.rs lines 107-109). -/
def Duration.to_millis (d : Duration) (tps : Nat) : Nat :=
  ticks_to_millis d.ticks tps

/-- `Duration::to_secs` (src/duration.rs lines 112-114). -/
def Duration.to_secs (d : Duration) (tps : Nat) : Nat :=
  ticks_to_secs d.ticks tps

/-- `Duration::checked_add` (src/duration.rs lines 117-122): u64
`checked_add` on the tick counts. -/
def Duration.checked_add (a b : Duration) : Option Duration :=
  if a.ticks + b.ticks ≤ u64Max then some ⟨a.ticks + b.ticks⟩ else none

/-- `Duration::checked_sub` (src/duration.rs lines 125-130): u64
`checked_sub` on the tick counts. -/
def Duration.checked_sub (a b : Duration) : Option Duration :=
  if b.ticks ≤ a.ticks then some ⟨a.ticks - b.ticks⟩ else none

/-- `Add for Duration` (src/duration.rs lines 149-159):
`checked_add(rhs).expect(..)`; the panic is modelled as `none`. -/
def Duration.add (a b : Duration) : Option Duration :=
  a.checked_add b

/-- `Sub for Duration` (src/duration.rs lines 170-180):
`checked_sub(rhs).expect(..)`; the panic is modelled as `none`. -/
def Duration.sub (a b : Duration) : Option Duration :=
  a.checked_sub b

/-- `Instant::from_ticks` (src/instant.rs lines 43-48). -/
def Instant.from_ticks (ticks : Nat) : Instant := ⟨ticks⟩

/-- `Instant::from_micros` (src/instant.rs lines 51-65): narrow u64
`checked_mul` then division by the unit constant; the `expect` panic on
overflow is modelled as `none`. -/
def Instant.from_micros (micros tps : Nat) : Option Instant :=
  if tps = 1000000 then some ⟨micros⟩
  else if micros * tps ≤ u64Max then some ⟨micros * tps / 1000000⟩
  else none

/-- `Instant::from_millis` (src/instant.rs lines 68-82). -/
def Instant.from_millis (millis tps : Nat) : Option Instant :=
  if tps = 1000 then some ⟨millis⟩
  else if millis * tps ≤ u64Max then some ⟨millis * tps / 1000⟩
  else none

/-- `Instant::from_secs` (src/instant.rs lines 85-97). -/
def Instant.from_secs (secs tps : Nat) : Option Instant :=
  if tps = 1 then some ⟨secs⟩
  else if secs * tps ≤ u64Max then some ⟨secs * tps⟩
  else none

/-- `Instant::to_micros` (src/instant.rs lines 105-115). -/
def Instant.to_micros (i : Instant) (tps : Nat) : Option Nat :=
  if tps = 1000000 then some i.ticks
  else if i.ticks * 1000000 ≤ u64Max then some (i.ticks * 1000000 / tps)
  else none

/-- `Instant::to_millis` (src/instant.rs lines 118-128). -/
def Instant.to_millis (i : Instant) (tps : Nat) : Option Nat :=
  if tps = 1000 then some i.ticks
  else if i.ticks * 1000 ≤ u64Max then some (i.ticks * 1000 / tps)
  else none

/-- `Instant::to_secs` (src/instant.rs lines 131-133): a single u64
division by the (positive) tick rate. -/
def Instant.to_secs (i : Instant) (tps : Nat) : Nat :=
  i.ticks / tps

/-- `Instant::duration_since` (src/instant.rs lines 137-142):
`checked_sub(..).unwrap()`; the unwrap panic is modelled as `none`. -/
def Instant.duration_since (s earlier : Instant) : Option Duration :=
  if earlier.ticks ≤ s.ticks then some ⟨s.ticks - earlier.ticks⟩ else none

/-- `Sub<Instant> for Instant` (src/instant.rs lines 208-217): delegates to
`duration_since`. -/
def Instant.sub_instant (s other : Instant) : Option Duration :=
  s.duration_since other

/-- A value within the u64 range is unchanged by the truncating cast. -/
lemma mod_id {x : Nat} (h : x ≤ u64Max) : x % 2^64 = x := by
  have hx : x < 2^64 := by unfold u64Max at h; omega
  exact Nat.mod_eq_of_lt hx

/-- Claim C1: the conversion functions are documented (spec §4.1, and the
`Panics on overflow` doc comments of their callers in src/duration.rs) to
signal overflow rather than return a different number, but the final
`as u64` cast in src/conv.rs silently truncates: at `micros = u64::MAX`,
`ticks_per_second = 2000000`, the exact floored result is
`36893488147419103230 > u64::MAX`, yet `micros_to_ticks` returns the
wrapped value `18446744073709551614` and `Duration::from_micros` wraps it
into a `Duration` without any panic. -/
theorem micros_to_ticks_silently_wraps :
    micros_to_ticks 18446744073709551615 2000000 = 18446744073709551614 ∧
    18446744073709551615 * 2000000 / 1000000 = 36893488147419103230 ∧
    u64Max < 36893488147419103230 ∧
    Duration.from_micros 18446744073709551615 2000000 =
      Duration.from_ticks 18446744073709551614 := by
  refine ⟨by decide, by decide, by decide, by decide⟩

/-- Claim C2 (counterexample): at `micros = 2^32`, `tick rate = 2^33`, the
`Instant` constructor panics (its narrow u64 `checked_mul` overflows) while
the `Duration` constructor succeeds through its wide u128 intermediate, so
the two paths do not "both succeed or both fail" at the same inputs. -/
theorem from_micros_policies_differ :
    Instant.from_micros 4294967296 8589934592 = none ∧
    Duration.from_micros 4294967296 8589934592 =
      Duration.from_ticks 36893488147419 := by
  refine ⟨by decide, by decide⟩

/-- Claim C2 (amended): the overflow policies of the two types differ. The
`Duration` conversion paths use a wide u128 intermediate and never fail,
while the `Instant` paths use narrow checked u64 arithmetic and panic on
overflow. Only a one-sided refinement holds: whenever an `Instant`
conversion succeeds, the corresponding `Duration` conversion produces the
same underlying tick count (for the micros, millis and secs constructors
and the to_micros/to_millis extractors alike). -/
theorem instant_refines_duration_conversions :
    (∀ m tps, 0 < tps → m ≤ u64Max → tps ≤ u64Max → ∀ i,
      Instant.from_micros m tps = some i →
      (Duration.from_micros m tps).ticks = i.ticks) ∧
    (∀ m tps, 0 < tps → m ≤ u64Max → tps ≤ u64Max → ∀ i,
      Instant.from_millis m tps = some i →
      (Duration.from_millis m tps).ticks = i.ticks) ∧
    (∀ m tps, 0 < tps → m ≤ u64Max → tps ≤ u64Max → ∀ i,
      Instant.from_secs m tps = some i →
      (Duration.from_secs m tps).ticks = i.ticks) ∧
    (∀ t tps, 0 < tps → t ≤ u64Max → tps ≤ u64Max → ∀ v,
      Instant.to_micros (Instant.from_ticks t) tps = some v →
      Duration.to_micros (Duration.from_ticks t) tps = v) ∧
    (∀ t tps, 0 < tps → t ≤ u64Max → tps ≤ u64Max → ∀ v,
      Instant.to_millis (Instant.from_ticks t) tps = some v →
      Duration.to_millis (Duration.from_ticks t) tps = v) := by
  refine ⟨?_, ?_, ?_, ?_, ?_⟩
  · intro m tps hpos hm htps i hi
    unfold Instant.from_micros at hi
    show micros_to_ticks m tps = i.ticks
    rw [micros_to_ticks_eq_default]
    unfold micros_to_ticks_default
    split_ifs at hi with h1 h2
    · simp only [Option.some.injEq] at hi
      subst hi; subst h1
      show (m * 1000000 / 1000000) % 2^64 = m
      rw [Nat.mul_div_cancel m (by norm_num)]
      exact mod_id hm
    · simp only [Option.some.injEq] at hi
      subst hi
      exact mod_id (le_trans (Nat.div_le_self _ _) h2)
  · intro m tps hpos hm htps i hi
    unfold Instant.from_millis at hi
    show millis_to_ticks m tps = i.ticks
    rw [millis_to_ticks_eq_default]
    unfold millis_to_ticks_default
    split_ifs at hi with h1 h2
    · simp only [Option.some.injEq] at hi
      subst hi; subst h1
      show (m * 1000 / 1000) % 2^64 = m
      rw [Nat.mul_div_cancel m (by norm_num)]
      exact mod_id hm
    · simp only [Option.some.injEq] at hi
      subst hi
      exact mod_id (le_trans (Nat.div_le_self _ _) h2)
  · intro m tps hpos hm htps i hi
    unfold Instant.from_secs at hi
    show secs_to_ticks m tps = i.ticks
    unfold secs_to_ticks
    split_ifs at hi with h1 h2
    · simp only [Option.some.injEq] at hi
      subst hi; subst h1
      show (m * 1) % 2^64 = m
      rw [Nat.mul_one]
      exact mod_id hm
    · simp only [Option.some.injEq] at hi
      subst hi
      exact mod_id h2
  · intro t tps hpos ht htps v hv
    unfold Instant.to_micros at hv
    show ticks_to_micros t tps = v
    rw [ticks_to_micros_eq_default]
    unfold ticks_to_micros_default
    split_ifs at hv with h1 h2
    · simp only [Option.some.injEq] at hv
      subst hv; subst h1
      show (t * 1000000 / 1000000) % 2^64 = t
      rw [Nat.mul_div_cancel t (by norm_num)]
      exact mod_id ht
    · simp only [Option.some.injEq] at hv
      subst hv
      exact mod_id (le_trans (Nat.div_le_self _ _) h2)
  · intro t tps hpos ht htps v hv
    unfold Instant.to_millis at hv
    show ticks_to_millis t tps = v
    rw [ticks_to_millis_eq_default]
    unfold ticks_to_millis_default
    split_ifs at hv with h1 h2
    · simp only [Option.some.injEq] at hv
      subst hv; subst h1
      show (t * 1000 / 1000) % 2^64 = t
      rw [Nat.mul_div_cancel t (by norm_num)]
      exact mod_id ht
    · simp only [Option.some.injEq] at hv
      subst hv
      exact mod_id (le_trans (Nat.div_le_self _ _) h2)

/-- Witness for the amended claim C2 at `micros = 5`, `tick rate = 32768`. -/
theorem instant_refines_duration_witness :
    (Duration.from_micros 5 32768).ticks = (Instant.from_ticks 0).ticks :=
  instant_refines_duration_conversions.1 5 32768 (by decide) (by decide)
    (by decide) (Instant.from_ticks 0) (by decide)

/-- Claim C3: at every tick rate listed in the fast-path tables, the four
tabled conversion functions return, for every u64 input, exactly the value
the general default arm would return at the same input and rate. -/
theorem fast_path_matches_default :
    ∀ r, r ∈ ([1, 10, 100, 1000, 10000, 100000,
               1000000, 10000000, 100000000] : List Nat) →
    ∀ m, m ≤ u64Max →
      micros_to_ticks m r = micros_to_ticks_default m r ∧
      millis_to_ticks m r = millis_to_ticks_default m r ∧
      ticks_to_micros m r = ticks_to_micros_default m r ∧
      ticks_to_millis m r = ticks_to_millis_default m r := by
  intro r _ m _
  exact ⟨micros_to_ticks_eq_default m r, millis_to_ticks_eq_default m r,
    ticks_to_micros_eq_default m r, ticks_to_millis_eq_default m r⟩

/-- Witness for claim C3 at rate 10000, input 123456. -/
theorem fast_path_matches_default_witness :
    micros_to_ticks 123456 10000 = micros_to_ticks_default 123456 10000 ∧
    millis_to_ticks 123456 10000 = millis_to_ticks_default 123456 10000 ∧
    ticks_to_micros 123456 10000 = ticks_to_micros_default 123456 10000 ∧
    ticks_to_millis 123456 10000 = ticks_to_millis_default 123456 10000 :=
  fast_path_matches_default 10000 (by decide) 123456 (by decide)

/-- Claim C4 (counterexample): at rate 3, the tick count `t = 6 * 10^13` is
an exact multiple of the rate-to-unit ratio `3 / 10^6` (because
`3 ∣ t * 10^6`), yet the micros round trip does not return `t`: the
intermediate `t * 10^6 / 3 = 2 * 10^19` exceeds `u64::MAX` and is
truncated, so the round trip returns `4659767778871`. -/
theorem roundtrip_exactness_fails :
    (3 : Nat) ∣ 60000000000000 * 1000000 ∧
    micros_to_ticks (ticks_to_micros 60000000000000 3) 3 = 4659767778871 ∧
    (4659767778871 : Nat) ≠ 60000000000000 := by
  refine ⟨by decide, by decide, by decide⟩

/-- Claim C4 (amended): for every positive rate and u64 tick count, the
round trip through micros, millis or secs loses precision only downward
(`unit_to_ticks (ticks_to_unit t r) r ≤ t`); and the round trip is exactly
`t` when `t` is an exact multiple of the rate-to-unit ratio, provided
additionally that the intermediate unit count fits in u64 (for the secs
pair the intermediate always fits, so no extra condition is needed). -/
theorem roundtrip_floor_amended :
    (∀ t r, 0 < r → t ≤ u64Max →
      micros_to_ticks (ticks_to_micros t r) r ≤ t) ∧
    (∀ t r, 0 < r → t ≤ u64Max →
      millis_to_ticks (ticks_to_millis t r) r ≤ t) ∧
    (∀ t r, 0 < r → t ≤ u64Max →
      secs_to_ticks (ticks_to_secs t r) r ≤ t) ∧
    (∀ t r, 0 < r → t ≤ u64Max → r ∣ t * 1000000 →
      t * 1000000 / r ≤ u64Max →
      micros_to_ticks (ticks_to_micros t r) r = t) ∧
    (∀ t r, 0 < r → t ≤ u64Max → r ∣ t * 1000 →
      t * 1000 / r ≤ u64Max →
      millis_to_ticks (ticks_to_millis t r) r = t) ∧
    (∀ t r, 0 < r → t ≤ u64Max → r ∣ t →
      secs_to_ticks (ticks_to_secs t r) r = t) := by
  refine ⟨?_, ?_, ?_, ?_, ?_, ?_⟩
  · intro t r hr ht
    rw [micros_to_ticks_eq_default, ticks_to_micros_eq_default]
    unfold micros_to_ticks_default ticks_to_micros_default
    calc ((t * 1000000 / r % 2^64) * r / 1000000) % 2^64
        ≤ (t * 1000000 / r % 2^64) * r / 1000000 := Nat.mod_le _ _
      _ ≤ t * 1000000 / r * r / 1000000 :=
          Nat.div_le_div_right (Nat.mul_le_mul_right r (Nat.mod_le _ _))
      _ ≤ t * 1000000 / 1000000 :=
          Nat.div_le_div_right (Nat.div_mul_le_self _ _)
      _ = t := Nat.mul_div_cancel t (by norm_num)
  · intro t r hr ht
    rw [millis_to_ticks_eq_default, ticks_to_millis_eq_default]
    unfold millis_to_ticks_default ticks_to_millis_default
    calc ((t * 1000 / r % 2^64) * r / 1000) % 2^64
        ≤ (t * 1000 / r % 2^64) * r / 1000 := Nat.mod_le _ _
      _ ≤ t * 1000 / r * r / 1000 :=
          Nat.div_le_div_right (Nat.mul_le_mul_right r (Nat.mod_le _ _))
      _ ≤ t * 1000 / 1000 :=
          Nat.div_le_div_right (Nat.div_mul_le_self _ _)
      _ = t := Nat.mul_div_cancel t (by norm_num)
  · intro t r hr ht
    unfold secs_to_ticks ticks_to_secs
    calc (t / r * r) % 2^64
        ≤ t / r * r := Nat.mod_le _ _
      _ ≤ t := Nat.div_mul_le_self _ _
  · intro t r hr ht hd hf
    rw [micros_to_ticks_eq_default, ticks_to_micros_eq_default]
    unfold micros_to_ticks_default ticks_to_micros_default
    rw [mod_id hf, Nat.div_mul_cancel hd, Nat.mul_div_cancel t (by norm_num)]
    exact mod_id ht
  · intro t r hr ht hd hf
    rw [millis_to_ticks_eq_default, ticks_to_millis_eq_default]
    unfold millis_to_ticks_default ticks_to_millis_default
    rw [mod_id hf, Nat.div_mul_cancel hd, Nat.mul_div_cancel t (by norm_num)]
    exact mod_id ht
  · intro t r hr ht hd
    unfold secs_to_ticks ticks_to_secs
    rw [Nat.div_mul_cancel hd]
    exact mod_id ht

/-- Witness for the amended claim C4: exact round trip at rate 32768,
`t = 65536 = 2 * 32768`. -/
theorem roundtrip_floor_witness :
    micros_to_ticks (ticks_to_micros 65536 32768) 32768 = 65536 :=
  (roundtrip_floor_amended.2.2.2.1) 65536 32768 (by decide) (by decide)
    (by decide) (by decide)

/-- Claim C5: `Instant::duration_since(earlier)` panics (fatal, modelled as
`none`) exactly when `earlier` has a strictly greater tick count than
`self`, and otherwise returns the `Duration` whose tick count is the
difference; the `Instant - Instant` operator delegates to it. -/
theorem duration_since_exact_underflow :
    ∀ s e : Instant,
      (Instant.duration_since s e = none ↔ s.ticks < e.ticks) ∧
      (e.ticks ≤ s.ticks →
        Instant.duration_since s e =
          some (Duration.from_ticks (s.ticks - e.ticks))) ∧
      Instant.sub_instant s e = Instant.duration_since s e := by
  intro s e
  unfold Instant.sub_instant Instant.duration_since Duration.from_ticks
  refine ⟨?_, ?_, rfl⟩
  · split_ifs with h
    · exact iff_of_false (by simp) (by omega)
    · exact iff_of_true rfl (by omega)
  · intro h
    rw [if_pos h]

/-- Witness for claim C5 at instants 7 and 3. -/
theorem duration_since_witness :
    Instant.duration_since (Instant.from_ticks 7) (Instant.from_ticks 3) =
      some (Duration.from_ticks 4) :=
  (duration_since_exact_underflow (Instant.from_ticks 7)
    (Instant.from_ticks 3)).2.1 (by decide)

/-- Claim C6: `Duration::checked_add` returns `none` exactly when the sum
of the tick counts exceeds `u64::MAX`; in particular it returns `none` at
`u64::MAX + 1` tick counts, and the `+` operator (which delegates to
`checked_add` and panics on `none`) signals the fatal condition there
instead of returning a wrapped value. -/
theorem checked_add_overflow_policy :
    Duration.checked_add (Duration.from_ticks u64Max)
      (Duration.from_ticks 1) = none ∧
    (∀ a b : Duration, a.ticks ≤ u64Max → b.ticks ≤ u64Max →
      (Duration.checked_add a b = none ↔ u64Max < a.ticks + b.ticks)) ∧
    Duration.add (Duration.from_ticks u64Max) (Duration.from_ticks 1) =
      none := by
  refine ⟨by decide, ?_, by decide⟩
  intro a b ha hb
  unfold Duration.checked_add
  split_ifs with h
  · exact iff_of_false (by simp) (by omega)
  · exact iff_of_true rfl (by omega)

/-- Witness for claim C6 at tick counts 2 and 3. -/
theorem checked_add_overflow_witness :
    Duration.checked_add (Duration.from_ticks 2) (Duration.from_ticks 3) =
      none ↔
    u64Max < (Duration.from_ticks 2).ticks + (Duration.from_ticks 3).ticks :=
  checked_add_overflow_policy.2.1 (Duration.from_ticks 2)
    (Duration.from_ticks 3) (by decide) (by decide)

/-- Claim C7: at tick rate 32768, `Duration::from_millis(1000)` equals
`Duration::from_ticks(32768)` exactly, `Duration::from_ticks(32768)`
converts back to 1000 milliseconds, and 32768 selects the non-tabled
default arm of both conversion tables. -/
theorem rate_32768_scenario :
    Duration.from_millis 1000 32768 = Duration.from_ticks 32768 ∧
    Duration.to_millis (Duration.from_ticks 32768) 32768 = 1000 ∧
    millis_nom_denom 32768 = (32768, 1000) ∧
    ticks_to_millis_nom_denom 32768 = (1000, 32768) := by
  refine ⟨by decide, by decide, by decide, by decide⟩

/-- Claim C8: `Duration` addition is a commutative monoid with the zero
duration as identity: `checked_add` is commutative, associative in the
`Option.bind` sense (both bracketings agree, `none` included), and adding
`Duration::from_ticks(0)` with the unchecked `+` operator never overflows
and returns the operand unchanged. -/
theorem duration_add_comm_monoid :
    (∀ a b : Duration,
      Duration.checked_add a b = Duration.checked_add b a) ∧
    (∀ a b c : Duration,
      (Duration.checked_add a b).bind (fun x => Duration.checked_add x c) =
      (Duration.checked_add b c).bind (fun x => Duration.checked_add a x)) ∧
    (∀ d : Duration, d.ticks ≤ u64Max →
      Duration.add d (Duration.from_ticks 0) = some d) := by
  refine ⟨?_, ?_, ?_⟩
  · intro a b
    unfold Duration.checked_add
    rw [Nat.add_comm]
  · intro a b c
    unfold Duration.checked_add u64Max
    by_cases h1 : a.ticks + b.ticks ≤ 18446744073709551615 <;>
      by_cases h2 : b.ticks + c.ticks ≤ 18446744073709551615 <;>
      simp only [h1, h2, if_true, if_false, ite_true, ite_false,
        Option.some_bind, Option.none_bind] <;>
      split_ifs <;>
      first
        | rfl
        | (exfalso; omega)
        | (rw [Nat.add_assoc])
  · intro d hd
    unfold Duration.add Duration.checked_add Duration.from_ticks
    show (if d.ticks + 0 ≤ u64Max then some ⟨d.ticks + 0⟩ else none) = some d
    rw [Nat.add_zero, if_pos hd]

/-- Witness for claim C8: adding the zero duration to 42 ticks. -/
theorem duration_add_identity_witness :
    Duration.add (Duration.from_ticks 42) (Duration.from_ticks 0) =
      some (Duration.from_ticks 42) :=
  duration_add_comm_monoid.2.2 (Duration.from_ticks 42) (by decide)

/-- Claim C9: `Duration::checked_sub` returns `none` (an absence, not a
panic) exactly when the right operand's tick count exceeds the left's, and
otherwise returns the duration with the difference; in particular
`5 ticks - 10 ticks` yields `none`. -/
theorem checked_sub_underflow_absence :
    (∀ a b : Duration, a.ticks ≤ u64Max → b.ticks ≤ u64Max →
      (Duration.checked_sub a b = none ↔ a.ticks < b.ticks) ∧
      (b.ticks ≤ a.ticks →
        Duration.checked_sub a b =
          some (Duration.from_ticks (a.ticks - b.ticks)))) ∧
    Duration.checked_sub (Duration.from_ticks 5) (Duration.from_ticks 10) =
      none := by
  refine ⟨?_, by decide⟩
  intro a b ha hb
  unfold Duration.checked_sub Duration.from_ticks
  constructor
  · split_ifs with h
    · exact iff_of_false (by simp) (by omega)
    · exact iff_of_true rfl (by omega)
  · intro h
    rw [if_pos h]

/-- Witness for claim C9 at tick counts 9 and 4. -/
theorem checked_sub_underflow_witness :
    Duration.checked_sub (Duration.from_ticks 9) (Duration.from_ticks 4) =
      some (Duration.from_ticks 5) :=
  (checked_sub_underflow_absence.1 (Duration.from_ticks 9)
    (Duration.from_ticks 4) (by decide) (by decide)).2 (by decide)

/-- Claim C10: for a positive tick rate, `Duration::to_secs` and
`Instant::to_secs` are a single u64 division `ticks / rate` with no
widening multiplication: the result always fits in u64, so no overflow
can be signalled — unlike `Instant::to_micros`/`to_millis`, which panic
on the same tick count at the same rate. -/
theorem to_secs_total_single_division :
    (∀ t r, 0 < r → t ≤ u64Max →
      Duration.to_secs (Duration.from_ticks t) r = t / r ∧
      Instant.to_secs (Instant.from_ticks t) r = t / r ∧
      t / r ≤ u64Max) ∧
    Instant.to_micros (Instant.from_ticks u64Max) 3 = none ∧
    Instant.to_millis (Instant.from_ticks u64Max) 3 = none := by
  refine ⟨?_, by decide, by decide⟩
  intro t r _ ht
  exact ⟨rfl, rfl, le_trans (Nat.div_le_self t r) ht⟩

/-- Witness for claim C10 at 100 ticks, rate 7. -/
theorem to_secs_total_witness :
    Duration.to_secs (Duration.from_ticks 100) 7 = 100 / 7 ∧
    Instant.to_secs (Instant.from_ticks 100) 7 = 100 / 7 ∧
    (100 : Nat) / 7 ≤ u64Max :=
  to_secs_total_single_division.1 100 7 (by decide) (by decide)

end Emtick
